import Mathlib

/-!
Verification of the Flicket user/group identity model
(`application/flicket/models/flicket_user.py`).

The Python module is embedded shallowly:
- a database table is a `List FlicketUser`; `query.filter_by(...)` becomes
  `List.filter` / `List.find?`;
- `datetime` values are integers (seconds); `timedelta(seconds=n)` is `n`;
- nullable columns are `Option` types; Python truthiness of an optional
  string (`None` and `""` are falsy) is made explicit as `pyTruthyStr`;
- operations that can raise a Python exception (comparing `None` against a
  `datetime`, attribute access on `None`) return `Except PyErr _`;
- `os.urandom(24)` is passed in as an explicit `rand : List Nat` argument;
  `base64.b64encode` is implemented faithfully as `b64encode`;
- `bcrypt.hashpw` and `url_for` are external collaborators and are passed
  in as function arguments.
-/

set_option autoImplicit false

/-- Python exceptions that the embedded operations can raise. -/
inductive PyErr where
  | typeError
  | attributeError
deriving DecidableEq, Repr

/-- Python truthiness of a nullable string column: `None` and the empty
string are falsy, every other string is truthy. -/
def pyTruthyStr : Option String → Bool
  | none => false
  | some s => s ≠ ""

/-- Python truthiness of an optional boolean (the value of `is_admin`,
which is `True` or `None`). -/
def pyTruthyOptBool : Option Bool → Bool
  | none => false
  | some b => b

/-- A row of the `flicket_users` table.  `password` is the stored bcrypt
digest (bytes).  `token` / `token_expiration` are the nullable session-token
columns.  `flicket_groups` is the many-to-many backref: the names of the
groups the user belongs to (ordered by group name by the relationship). -/
structure FlicketUser where
  id : Int
  username : String
  name : String
  password : List Nat
  email : String
  date_added : Option Int
  date_modified : Option Int
  job_title : Option String
  avatar : Option String
  total_posts : Int
  token : Option String
  token_expiration : Option Int
  flicket_groups : List String
deriving DecidableEq, Repr

/-- The base64 alphabet character for a 6-bit value. -/
def b64char (n : Nat) : Char :=
  "ABCDEFGHIJKLMNOPQRSTUVWXYZabcdefghijklmnopqrstuvwxyz0123456789+/".toList.getD n 'A'

/-- Computes `base64.b64encode` of a byte sequence, decoded to a string
(the output is ASCII, so `.decode` is the identity on content). -/
def b64encode : List Nat → String
  | b1 :: b2 :: b3 :: rest =>
    let n := b1 % 256 * 65536 + b2 % 256 * 256 + b3 % 256
    String.mk [b64char (n / 262144), b64char (n / 4096 % 64),
               b64char (n / 64 % 64), b64char (n % 64)] ++ b64encode rest
  | [b1] =>
    let x := b1 % 256
    String.mk [b64char (x / 4), b64char (x % 4 * 16)] ++ "=="
  | [b1, b2] =>
    let x := b1 % 256
    let y := b2 % 256
    String.mk [b64char (x / 4), b64char (x % 4 * 16 + y / 16), b64char (y % 16 * 4)] ++ "="
  | [] => ""

/-- Embeds `FlicketUser.check_password(self, password)`: re-looks the user up by
`self.username` (`FlicketUser.query.filter_by(username=...)`), returns
`False` when the filter finds no rows, otherwise compares
`bcrypt.hashpw(password, stored)` byte-for-byte against the stored digest
of the first row found.  `hashpw` is the external bcrypt primitive. -/
def check_password (db : List FlicketUser) (self_username password : String)
    (hashpw : String → List Nat → List Nat) : Bool :=
  let result := db.filter (fun u => u.username == self_username)
  if result.length == 0 then false
  else
    match result.head? with
    | none => false
    | some r => hashpw password r.password == r.password

/-- Embeds `FlicketUser.is_admin`: re-fetches the user row by `self.id`
(`filter_by(id=...).first()`), then loops over the fetched row's groups and
returns `True` on the first whose name equals the configured
`ADMIN_GROUP_NAME`; falls off the end returning `None` otherwise.  When the
id matches no row, `user` is `None` and the loop raises `AttributeError`. -/
def is_admin (db : List FlicketUser) (self_id : Int) (admin_group_name : String) :
    Except PyErr (Option Bool) :=
  match db.find? (fun u => u.id == self_id) with
  | none => .error .attributeError
  | some user =>
    if user.flicket_groups.any (fun g => g == admin_group_name) then .ok (some true)
    else .ok none

/-- One branch of the `job_title` serialization:
`self.job_title if self.job_title else 'unknown'`. -/
def jobTitleField (jt : Option String) : String :=
  if pyTruthyStr jt then jt.getD "" else "unknown"

/-- A Python value in a serialized dictionary: an int, a string, or a
nested dict. -/
inductive PyVal where
  | vint (n : Int)
  | vstr (s : String)
  | vdict (entries : List (String × PyVal))

/-- Embeds `FlicketUser.to_dict(self)`: the serialization map, in insertion order.
`url_for_user` stands for `url_for('bp_api_v2.get_user', id=...)`. -/
def to_dict (url_for_user : Int → String) (u : FlicketUser) : List (String × PyVal) :=
  [("id", .vint u.id),
   ("username", .vstr u.username),
   ("name", .vstr u.name),
   ("email", .vstr u.email),
   ("job_title", .vstr (jobTitleField u.job_title)),
   ("total_posts", .vint u.total_posts),
   ("links", .vdict [("self", .vstr (url_for_user u.id))])]

/-- The observable outcome of `FlicketUser.get_token`: the returned token
string, the state of `self` afterwards, and whether `db.session.add(self)`
was called. -/
structure GetTokenResult where
  ret : String
  user : FlicketUser
  sessionAdded : Bool
deriving DecidableEq, Repr

/-- Embeds `FlicketUser.get_token(self, expires_in=36000)` at current time `now`
(`datetime.utcnow()`), with `rand` the bytes produced by `os.urandom(24)`.
If `self.token` is truthy, Python evaluates
`self.token_expiration > now + timedelta(seconds=60)`, which raises
`TypeError` when the expiration column is null; if that comparison holds the
existing token is returned with no mutation.  Otherwise a fresh token is
minted, the expiration set to `now + expires_in`, and the record registered
with the session. -/
def get_token (u : FlicketUser) (now expires_in : Int) (rand : List Nat) :
    Except PyErr GetTokenResult :=
  if pyTruthyStr u.token then
    match u.token_expiration with
    | none => .error .typeError
    | some e =>
      if e > now + 60 then .ok ⟨u.token.getD "", u, false⟩
      else
        let t := b64encode rand
        .ok ⟨t, { u with token := some t, token_expiration := some (now + expires_in) }, true⟩
  else
    let t := b64encode rand
    .ok ⟨t, { u with token := some t, token_expiration := some (now + expires_in) }, true⟩

/-- Embeds `FlicketUser.revoke_token(self)` at current time `now`:
`self.token_expiration = datetime.utcnow() - timedelta(seconds=1)`. -/
def revoke_token (u : FlicketUser) (now : Int) : FlicketUser :=
  { u with token_expiration := some (now - 1) }

/-- Embeds `FlicketUser.check_token(token)` at current time `now`: looks the row up
by token value (`filter_by(token=token).first()`); returns `None` when no
row matches or the found row's expiration is strictly before `now`, the row
otherwise.  Evaluating `user.token_expiration < datetime.utcnow()` on a row
whose expiration column is null raises `TypeError`. -/
def check_token (db : List FlicketUser) (t : String) (now : Int) :
    Except PyErr (Option FlicketUser) :=
  match db.find? (fun u => u.token == some t) with
  | none => .ok none
  | some user =>
    match user.token_expiration with
    | none => .error .typeError
    | some e => if e < now then .ok none else .ok (some user)

/-- The result of `query.paginate(page, per_page, False)` on a query whose
full result set is `l`: Flask-SQLAlchemy clamps `page` below at 1 when
`error_out` is false, slices the window, and exposes `total` (row count),
`pages` (`ceil(total / per_page)`), `has_next` (`page < pages`) and
`has_prev` (`page > 1`). -/
structure Pagination (α : Type) where
  items : List α
  total : Nat
  pages : Nat
  has_next : Bool
  has_prev : Bool
deriving Repr

def paginate {α : Type} (l : List α) (page per_page : Nat) : Pagination α :=
  let page := if page < 1 then 1 else page
  let total := l.length
  { items := (l.drop ((page - 1) * per_page)).take per_page
    total := total
    pages := (total + per_page - 1) / per_page
    has_next := page < (total + per_page - 1) / per_page
    has_prev := 1 < page }

/-- The `_meta` block of `to_collection_dict`. -/
structure CollectionMeta where
  page : Nat
  per_page : Nat
  total_pages : Nat
  total_items : Nat
deriving DecidableEq, Repr

/-- The `_links` block of `to_collection_dict`: `next`/`prev` are `None`
when there is no such page. -/
structure CollectionLinks where
  self : String
  next : Option String
  prev : Option String
deriving DecidableEq, Repr

/-- The structure returned by `to_collection_dict`. -/
structure CollectionDict (D : Type) where
  items : List D
  meta : CollectionMeta
  links : CollectionLinks

/-- Embeds `PaginatedAPIMixin.to_collection_dict(query, page, per_page, endpoint,
**kwargs)`: paginates the query, maps each item through its own `to_dict`
(abstracted as `toDict`), and builds `_meta` and `_links`.  `urlFor p pp`
stands for `url_for(endpoint, page=p, per_page=pp, **kwargs)`. -/
def to_collection_dict {α D : Type} (toDict : α → D) (urlFor : Nat → Nat → String)
    (l : List α) (page per_page : Nat) : CollectionDict D :=
  let resources := paginate l page per_page
  { items := resources.items.map toDict
    meta := ⟨page, per_page, resources.pages, resources.total⟩
    links :=
      { self := urlFor page per_page
        next := if resources.has_next then some (urlFor (page + 1) per_page) else none
        prev := if resources.has_prev then some (urlFor (page - 1) per_page) else none } }

/-- A concrete user row used in counterexamples and witnesses. -/
def cUser : FlicketUser :=
  { id := 1, username := "u", name := "n", password := [7], email := "e",
    date_added := some 0, date_modified := none, job_title := none,
    avatar := none, total_posts := 0, token := some "t",
    token_expiration := some 100, flicket_groups := [] }

/-- A concrete admin user row used in witnesses. -/
def cAdminUser : FlicketUser :=
  { id := 2, username := "a", name := "adm", password := [9], email := "a@x",
    date_added := some 0, date_modified := none, job_title := some "boss",
    avatar := none, total_posts := 3, token := none,
    token_expiration := none, flicket_groups := ["all", "flicket_admin"] }

/-- A concrete stand-in for `bcrypt.hashpw` used in witnesses: it fixes the
stored digest exactly for the password `"pw"` and perturbs it otherwise. -/
def exHashpw (p : String) (s : List Nat) : List Nat :=
  if p == "pw" then s else 0 :: s

/-- A concrete stand-in for the `url_for` collaborator used in witnesses. -/
def exUrl (i : Int) : String :=
  toString i

/-- Claim C1 (counterexample): at the boundary `now = token_expiration` the
code still returns the user — `check_token` rejects only when
`token_expiration < now` (strict) — so the claimed behaviour "absent for
`now >= token_expiration`" is false.  Here the stored expiration is 100 and
the current time is 100. -/
theorem check_token_at_expiry_counterexample :
    cUser.token = some "t" ∧ cUser.token_expiration = some 100 ∧
    ¬ ((100 : Int) < 100) ∧
    check_token [cUser] "t" 100 = .ok (some cUser) :=
  ⟨rfl, rfl, by omega, rfl⟩

/-- Claim C1 (amended): for every stored token value `t` and current time
`now`, `check_token t` returns the owning user exactly when a user with
token `t` exists and `now ≤ token_expiration`; for `now > token_expiration`,
or for any token value no user holds, it returns an absent result (`None`),
never an exception. -/
theorem check_token_spec (db : List FlicketUser) (t : String) (now : Int) :
    (db.find? (fun u => u.token == some t) = none →
      check_token db t now = .ok none)
  ∧ (∀ u e, db.find? (fun u => u.token == some t) = some u →
      u.token_expiration = some e →
      check_token db t now = .ok (if now ≤ e then some u else none)) := by
  constructor
  · intro h
    simp [check_token, h]
  · intro u e hf he
    simp only [check_token, hf, he]
    by_cases h : e < now
    · rw [if_pos h, if_neg (by omega)]
    · rw [if_neg h, if_pos (by omega)]

/-- Witness for C1's amended theorem: an unissued token value yields
`None`, and a token checked before its expiration yields its owner. -/
theorem check_token_spec_witness :
    check_token [cUser] "z" 100 = .ok none ∧
    check_token [cUser] "t" 50 = .ok (some cUser) := by
  constructor
  · exact (check_token_spec [cUser] "z" 100).1 (by decide)
  · have h := (check_token_spec [cUser] "t" 50).2 cUser 100 (by decide) rfl
    rwa [if_pos (by omega)] at h

/-- Claim C2: for a user whose token is set (Python-truthy) and whose
expiration lies strictly more than 60 seconds in the future, `get_token`
returns the existing token, leaves the user record unchanged, and does not
register anything with the session; hence two calls within the validity
window return the identical token string. -/
theorem get_token_idempotent (u : FlicketUser) (t : String)
    (e now now₂ ei ei₂ : Int) (rand rand₂ : List Nat)
    (ht : u.token = some t) (hne : t ≠ "") (he : u.token_expiration = some e)
    (h1 : now + 60 < e) (h2 : now₂ + 60 < e) :
    get_token u now ei rand = .ok ⟨t, u, false⟩ ∧
    get_token u now₂ ei₂ rand₂ = .ok ⟨t, u, false⟩ := by
  constructor
  · simp [get_token, pyTruthyStr, hne, he, ht, h1]
  · simp [get_token, pyTruthyStr, hne, he, ht, h2]

/-- Witness for C2: the concrete user holds token `"t"` expiring at 100;
two calls at times 0 and 1 both return `"t"` and leave the record as is. -/
theorem get_token_idempotent_witness :
    get_token cUser 0 36000 [] = .ok ⟨"t", cUser, false⟩ ∧
    get_token cUser 1 36000 [5] = .ok ⟨"t", cUser, false⟩ :=
  get_token_idempotent cUser "t" 100 0 1 36000 36000 [] [5]
    rfl (by decide) rfl (by omega) (by omega)

/-- Claim C3: for a user with no (truthy) token, or whose token has 60
seconds or less of validity remaining, `get_token` mints a new token equal
to the base64 encoding of the 24 fresh random bytes, sets the expiration to
`now + expires_in`, registers the mutated record with the session, and
returns the new token string. -/
theorem get_token_mints (u : FlicketUser) (now ei : Int) (rand : List Nat)
    (_hlen : rand.length = 24)
    (h : pyTruthyStr u.token = false ∨
      ∃ e, u.token_expiration = some e ∧ e ≤ now + 60) :
    get_token u now ei rand =
      .ok ⟨b64encode rand,
           { u with token := some (b64encode rand),
                    token_expiration := some (now + ei) }, true⟩ := by
  rcases h with h | ⟨e, he, hle⟩
  · simp [get_token, h]
  · by_cases htr : pyTruthyStr u.token
    · simp [get_token, htr, he, if_neg (by omega : ¬ e > now + 60)]
    · simp [get_token, htr]

/-- Witness for C3: a user with no token receives the base64 encoding of
the 24 supplied bytes, with expiration `0 + 36000`. -/
theorem get_token_mints_witness :
    get_token { cUser with token := none } 0 36000 (List.replicate 24 0) =
      .ok ⟨b64encode (List.replicate 24 0),
           { { cUser with token := none } with
               token := some (b64encode (List.replicate 24 0)),
               token_expiration := some (0 + 36000) }, true⟩ :=
  get_token_mints { cUser with token := none } 0 36000 (List.replicate 24 0)
    (by decide) (Or.inl (by decide))

/-- Claim C4: `check_password` re-looks the row up by username; it returns
false when no row with that username exists, and otherwise returns true
exactly when hashing the supplied plaintext with the stored hash as salt
reproduces the stored hash byte-for-byte.  In particular, when the stored
digest verifies password `P` (the bcrypt round-trip property) and fails
`P ++ "x"`, the two calls return true and false respectively.  The
embedding is a pure function, so no state is mutated. -/
theorem check_password_spec (db : List FlicketUser) (un P : String)
    (hashpw : String → List Nat → List Nat) :
    (db.filter (fun v => v.username == un) = [] →
      check_password db un P hashpw = false)
  ∧ (∀ r rest, db.filter (fun v => v.username == un) = r :: rest →
      (check_password db un P hashpw = true ↔ hashpw P r.password = r.password))
  ∧ (∀ r rest, db.filter (fun v => v.username == un) = r :: rest →
      hashpw P r.password = r.password →
      hashpw (P ++ "x") r.password ≠ r.password →
      check_password db un P hashpw = true ∧
      check_password db un (P ++ "x") hashpw = false) := by
  have key : ∀ (Q : String) r rest, db.filter (fun v => v.username == un) = r :: rest →
      check_password db un Q hashpw = (hashpw Q r.password == r.password) := by
    intro Q r rest h
    simp [check_password, h]
  refine ⟨?_, ?_, ?_⟩
  · intro h
    simp [check_password, h]
  · intro r rest h
    rw [key P r rest h]
    exact beq_iff_eq
  · intro r rest h h1 h2
    constructor
    · rw [key P r rest h]
      exact beq_iff_eq.mpr h1
    · rw [key (P ++ "x") r rest h]
      exact beq_eq_false_iff_ne.mpr h2

/-- Witness for C4: with a concrete stand-in for bcrypt under which the
stored digest verifies exactly the password `"pw"`, `check_password`
accepts `"pw"` and rejects `"pw" ++ "x"`. -/
theorem check_password_spec_witness :
    check_password [cUser] "u" "pw" exHashpw = true ∧
    check_password [cUser] "u" ("pw" ++ "x") exHashpw = false :=
  (check_password_spec [cUser] "u" "pw" exHashpw).2.2 cUser []
    (by decide) (by decide) (by decide)

/-- Claim C5: `is_admin` re-fetches the user row by id; when the fetch
finds row `v`, the property returns `Some True` when some associated
group's name equals the configured admin-group name and `None` otherwise,
so its Python truthiness is true exactly on admin-group membership. -/
theorem is_admin_spec (db : List FlicketUser) (i : Int) (admin : String)
    (v : FlicketUser) (hfind : db.find? (fun u => u.id == i) = some v) :
    is_admin db i admin =
      .ok (if admin ∈ v.flicket_groups then some true else none)
  ∧ (pyTruthyOptBool (if admin ∈ v.flicket_groups then some true else none) = true ↔
      admin ∈ v.flicket_groups) := by
  have hany : (v.flicket_groups.any (fun g => g == admin) = true) ↔
      admin ∈ v.flicket_groups := by
    simp [List.any_eq_true]
  constructor
  · simp only [is_admin, hfind]
    by_cases h : admin ∈ v.flicket_groups
    · rw [if_pos (hany.mpr h), if_pos h]
    · rw [if_neg (fun hc => h (hany.mp hc)), if_neg h]
  · by_cases h : admin ∈ v.flicket_groups
    · simp [h, pyTruthyOptBool]
    · simp [h, pyTruthyOptBool]

/-- Witness for C5: the concrete admin user (two groups, one of them the
admin group) and the concrete plain user (no groups). -/
theorem is_admin_spec_witness :
    is_admin [cUser, cAdminUser] 2 "flicket_admin" =
      .ok (if "flicket_admin" ∈ cAdminUser.flicket_groups then some true else none) ∧
    is_admin [cUser, cAdminUser] 1 "flicket_admin" =
      .ok (if "flicket_admin" ∈ cUser.flicket_groups then some true else none) :=
  ⟨(is_admin_spec [cUser, cAdminUser] 2 "flicket_admin" cAdminUser (by decide)).1,
   (is_admin_spec [cUser, cAdminUser] 1 "flicket_admin" cUser (by decide)).1⟩

/-- Claim C6: `revoke_token` sets the expiration to one second before the
current time and changes no other field (the token string stays in place);
immediately afterwards (at any time `now' ≥ now`) `check_token` of that
token returns an absent result, and a subsequent `get_token` mints and
returns a token different from the revoked one (given that the fresh
random bytes encode to a different string). -/
theorem revoke_token_spec (u : FlicketUser) (t : String) (now now' ei : Int)
    (rand : List Nat) (ht : u.token = some t) (hne : t ≠ "")
    (hnow : now ≤ now') (hrand : b64encode rand ≠ t) :
    check_token [revoke_token u now] t now' = .ok none ∧
    get_token (revoke_token u now) now' ei rand =
      .ok ⟨b64encode rand,
           { revoke_token u now with
               token := some (b64encode rand),
               token_expiration := some (now' + ei) }, true⟩ ∧
    b64encode rand ≠ t ∧
    (revoke_token u now).token_expiration = some (now - 1) ∧
    (revoke_token u now).token = u.token ∧
    (revoke_token u now).id = u.id ∧
    (revoke_token u now).username = u.username ∧
    (revoke_token u now).name = u.name ∧
    (revoke_token u now).password = u.password ∧
    (revoke_token u now).email = u.email ∧
    (revoke_token u now).date_added = u.date_added ∧
    (revoke_token u now).date_modified = u.date_modified ∧
    (revoke_token u now).job_title = u.job_title ∧
    (revoke_token u now).avatar = u.avatar ∧
    (revoke_token u now).total_posts = u.total_posts ∧
    (revoke_token u now).flicket_groups = u.flicket_groups := by
  refine ⟨?_, ?_, hrand, rfl, rfl, rfl, rfl, rfl, rfl, rfl, rfl, rfl, rfl, rfl, rfl, rfl⟩
  · simp [check_token, List.find?, revoke_token, ht,
          show now - 1 < now' from by omega]
  · simp [get_token, revoke_token, pyTruthyStr, ht, hne,
          show ¬ now - 1 > now' + 60 from by omega]

/-- Witness for C6: the concrete user's token `"t"` (expiring at 100) is
revoked at time 100; checking it at the same instant yields `None`, and a
fresh `get_token` returns the encoding of 24 zero bytes, not `"t"`. -/
theorem revoke_token_spec_witness :
    check_token [revoke_token cUser 100] "t" 100 = .ok none ∧
    get_token (revoke_token cUser 100) 100 36000 (List.replicate 24 0) =
      .ok ⟨b64encode (List.replicate 24 0),
           { revoke_token cUser 100 with
               token := some (b64encode (List.replicate 24 0)),
               token_expiration := some (100 + 36000) }, true⟩ := by
  have h := revoke_token_spec cUser "t" 100 100 36000 (List.replicate 24 0)
    rfl (by decide) (by omega) (by decide)
  exact ⟨h.1, h.2.1⟩

/-- Claim C7: over a 25-item result set with `per_page = 10` (so pages 1–3
exist), `to_collection_dict` returns the page's window mapped through the
items' own `to_dict`, `_meta` with the given page, `per_page`,
`total_pages = 3` and `total_items = 25`, and `_links` whose `next`/`prev`
are `None` exactly when no such page exists: page 1 has `next` populated
and `prev` absent, page 3 has `prev` populated and `next` absent. -/
theorem to_collection_dict_spec {α D : Type} (toDict : α → D)
    (urlFor : Nat → Nat → String) (l : List α) (page : Nat)
    (hlen : l.length = 25) (h1 : 1 ≤ page) (h3 : page ≤ 3) :
    (to_collection_dict toDict urlFor l page 10).items
        = ((l.drop ((page - 1) * 10)).take 10).map toDict ∧
    (to_collection_dict toDict urlFor l page 10).meta = ⟨page, 10, 3, 25⟩ ∧
    (to_collection_dict toDict urlFor l page 10).links.self = urlFor page 10 ∧
    ((to_collection_dict toDict urlFor l page 10).links.next = none ↔ page = 3) ∧
    ((to_collection_dict toDict urlFor l page 10).links.prev = none ↔ page = 1) ∧
    (page = 1 →
      (to_collection_dict toDict urlFor l page 10).links.next = some (urlFor 2 10)) ∧
    (page = 3 →
      (to_collection_dict toDict urlFor l page 10).links.prev = some (urlFor 2 10)) := by
  interval_cases page
  · refine ⟨?_, ?_, ?_, ?_, ?_, ?_, ?_⟩ <;>
      simp [to_collection_dict, paginate, hlen]
  · refine ⟨?_, ?_, ?_, ?_, ?_, ?_, ?_⟩ <;>
      simp [to_collection_dict, paginate, hlen]
  · refine ⟨?_, ?_, ?_, ?_, ?_, ?_, ?_⟩ <;>
      simp [to_collection_dict, paginate, hlen]

/-- Witness for C7: page 1 of the 25-element list `List.range 25`. -/
theorem to_collection_dict_spec_witness :
    (to_collection_dict (fun n : Nat => n) (fun p pp => toString (p * 100 + pp))
        (List.range 25) 1 10).meta = ⟨1, 10, 3, 25⟩ ∧
    (to_collection_dict (fun n : Nat => n) (fun p pp => toString (p * 100 + pp))
        (List.range 25) 1 10).links.prev = none := by
  have h := to_collection_dict_spec (fun n : Nat => n)
    (fun p pp => toString (p * 100 + pp)) (List.range 25) 1
    (by simp) (by omega) (by omega)
  exact ⟨h.2.1, h.2.2.2.2.1.mpr rfl⟩

/-- Claim C8: `to_dict` returns a map holding exactly the keys `id`,
`username`, `name`, `email`, `job_title`, `total_posts` and the self-link
block; `job_title` is the literal `"unknown"` when the user has no
(truthy) job title and the stored literal value when a non-empty one is
present; the output is independent of the password and token fields, so
neither appears anywhere in it. -/
theorem to_dict_spec (f : Int → String) (u : FlicketUser) :
    (to_dict f u).map Prod.fst
        = ["id", "username", "name", "email", "job_title", "total_posts", "links"] ∧
    (∀ p t te, to_dict f { u with password := p, token := t, token_expiration := te }
        = to_dict f u) ∧
    (u.job_title = none →
      (to_dict f u).lookup "job_title" = some (.vstr "unknown")) ∧
    (∀ j, u.job_title = some j → j ≠ "" →
      (to_dict f u).lookup "job_title" = some (.vstr j)) ∧
    (to_dict f u).lookup "links" = some (.vdict [("self", .vstr (f u.id))]) := by
  have base : (to_dict f u).lookup "job_title"
      = some (.vstr (jobTitleField u.job_title)) := by
    simp [to_dict, List.lookup]
  refine ⟨rfl, fun p t te => rfl, ?_, ?_, ?_⟩
  · intro h
    rw [base]
    simp [jobTitleField, pyTruthyStr, h]
  · intro j hj hne
    rw [base]
    simp [jobTitleField, pyTruthyStr, hj, hne]
  · simp [to_dict, List.lookup]

/-- Witness for C8: a user with job title `"boss"` serializes it
literally. -/
theorem to_dict_spec_witness :
    (to_dict exUrl { cUser with job_title := some "boss" }).lookup "job_title"
      = some (.vstr "boss") :=
  (to_dict_spec exUrl { cUser with job_title := some "boss" }).2.2.2.1 "boss"
    rfl (by decide)

/-- Claim C9: under the data-model invariant that a stored token, when
present, is paired with a non-null expiration, `check_token` (for any
token value and time) and `get_token` (for any user in the table, time,
duration and random bytes) never raise: every result is an `ok` value. -/
theorem no_exception_spec (db : List FlicketUser)
    (hinv : ∀ u ∈ db, u.token ≠ none → u.token_expiration ≠ none) :
    (∀ t now, (check_token db t now).isOk = true) ∧
    (∀ u ∈ db, ∀ now ei rand, (get_token u now ei rand).isOk = true) := by
  constructor
  · intro t now
    rcases hf : db.find? (fun u => u.token == some t) with _ | v
    · simp [check_token, hf, Except.isOk, Except.toBool]
    · have hv : v ∈ db := List.mem_of_find?_eq_some hf
      have hp : v.token = some t := by
        have := List.find?_some hf
        simpa using this
      have htok : v.token ≠ none := by
        rw [hp]
        simp
      rcases he : v.token_expiration with _ | e
      · exact absurd he (hinv v hv htok)
      · by_cases h : e < now
        · simp [check_token, hf, he, h, Except.isOk, Except.toBool]
        · simp [check_token, hf, he, h, Except.isOk, Except.toBool]
  · intro u hu now ei rand
    by_cases htr : pyTruthyStr u.token = true
    · have htok : u.token ≠ none := by
        intro h
        rw [h] at htr
        simp [pyTruthyStr] at htr
      rcases he : u.token_expiration with _ | e
      · exact absurd he (hinv u hu htok)
      · by_cases h : e > now + 60
        · simp [get_token, htr, he, h, Except.isOk, Except.toBool]
        · simp [get_token, htr, he, h, Except.isOk, Except.toBool]
    · simp only [Bool.not_eq_true] at htr
      simp [get_token, htr, Except.isOk, Except.toBool]

/-- Witness for C9: the one-row table holding the concrete user (token
set, expiration set) satisfies the invariant, and both operations return
`ok` there. -/
theorem no_exception_spec_witness :
    (check_token [cUser] "t" 0).isOk = true ∧
    (get_token cUser 0 36000 []).isOk = true := by
  have h := no_exception_spec [cUser] (by
    intro u hu htok
    simp only [List.mem_singleton] at hu
    subst hu
    simp [cUser])
  exact ⟨h.1 "t" 0, h.2 cUser (by simp) 0 36000 []⟩

/-- Claim C10: when `job_title` is present but the empty string, the
truthiness test in `to_dict` still substitutes the literal `"unknown"`
rather than the stored empty string. -/
theorem to_dict_empty_job_title (f : Int → String) (u : FlicketUser)
    (h : u.job_title = some "") :
    (to_dict f u).lookup "job_title" = some (.vstr "unknown") := by
  have base : (to_dict f u).lookup "job_title"
      = some (.vstr (jobTitleField u.job_title)) := by
    simp [to_dict, List.lookup]
  rw [base]
  simp [jobTitleField, pyTruthyStr, h]

/-- Witness for C10: the concrete user with `job_title = ""`. -/
theorem to_dict_empty_job_title_witness :
    (to_dict exUrl { cUser with job_title := some "" }).lookup "job_title"
      = some (.vstr "unknown") :=
  to_dict_empty_job_title exUrl { cUser with job_title := some "" } rfl
